import Mathlib

/-!
Shallow embedding of the lunar-crater visualization (two source variants:
`script.js`, the time-filter variant, and the unnamed diameter-filter
variant).  JavaScript numbers are modelled by `ℚ` wherever the code only
subtracts, compares, takes maxima and ceilings; the radius scale, which
uses `Math.sqrt`, is modelled over `ℝ` extended with a NaN element
(`JSNum`), since `Math.sqrt` of a negative number yields `NaN` and
`Math.min`/`Math.max` propagate `NaN`.

Object identity: JavaScript `Array.prototype.includes` compares objects by
reference (SameValueZero).  A parsed crater record is a fresh object per
row, so records carry a `ref : ℕ` field standing for the object identity;
two records are the same object exactly when their `ref`s agree.
-/

/-- A raw tabular row, its string fields already coerced to numbers.
`SurvivedTimeStep = none` models an absent/empty field (falsy string). -/
structure RawRow where
  Longitude : ℚ
  Latitude : ℚ
  diameter : ℚ
  TimeStepCreated : ℚ
  SurvivedTimeStep : Option ℚ
deriving DecidableEq, Repr

/-- A parsed crater record.  `ref` is the object identity of the record
(fresh per parsed row); the remaining fields are those built by
`parseCraterRow`. -/
structure CraterRecord where
  ref : ℕ
  lon : ℚ
  lat : ℚ
  diameter : ℚ
  created : ℚ
  survivedTime : Option ℚ
deriving DecidableEq, Repr

/-- `script.js` (time variant) `parseCraterRow`: `lon = lon - 180;
if (lon < -180) lon += 360;`.  The `r` argument is the fresh object
identity of the record being allocated. -/
def parseCraterRowTime (d : RawRow) (r : ℕ) : CraterRecord :=
  let lon := d.Longitude - 180
  let lon := if lon < -180 then lon + 360 else lon
  { ref := r
    lon := lon
    lat := d.Latitude
    diameter := d.diameter
    created := d.TimeStepCreated
    survivedTime := d.SurvivedTimeStep }

/-- Diameter variant `parseCraterRow`: every field is a plain numeric
coercion, with no longitude transform.  (`+d.SurvivedTimeStep` of an
absent field is `NaN` in the source; `none` stands in for that here —
no claim depends on the `survivedTime` field.) -/
def parseCraterRowDiam (d : RawRow) (r : ℕ) : CraterRecord :=
  { ref := r
    lon := d.Longitude
    lat := d.Latitude
    diameter := d.diameter
    created := d.TimeStepCreated
    survivedTime := d.SurvivedTimeStep }

/-- Filtered sequence built by the time variant `update()`:
`if (showSurvived) filtered.push(...survivedData.filter(d => d.created >= minTime));`
then the same for `erasedData` when `showErased`. -/
def updateFilteredTime (showSurvived showErased : Bool) (minTime : ℚ)
    (survivedData erasedData : List CraterRecord) : List CraterRecord :=
  let filtered : List CraterRecord := []
  let filtered := if showSurvived then
    filtered ++ survivedData.filter (fun d => decide (d.created ≥ minTime)) else filtered
  let filtered := if showErased then
    filtered ++ erasedData.filter (fun d => decide (d.created ≥ minTime)) else filtered
  filtered

/-- Filtered sequence built by the diameter variant `update()`:
`filtered = filtered.concat(survivedData.filter(d => d.diameter >= minDiameter))`
when `showSurvived`, then the same for `erasedData` when `showErased`. -/
def updateFilteredDiam (showSurvived showErased : Bool) (minDiameter : ℚ)
    (survivedData erasedData : List CraterRecord) : List CraterRecord :=
  let filtered : List CraterRecord := []
  let filtered := if showSurvived then
    filtered ++ survivedData.filter (fun d => decide (d.diameter ≥ minDiameter)) else filtered
  let filtered := if showErased then
    filtered ++ erasedData.filter (fun d => decide (d.diameter ≥ minDiameter)) else filtered
  filtered

/-- A checkbox DOM control. -/
structure Checkbox where
  checked : Bool
deriving DecidableEq, Repr

/-- A range-input DOM control; `value` is the numeric coercion of the
string the control holds. -/
structure RangeInput where
  value : ℚ
deriving DecidableEq, Repr

/-- Reading `.checked` off a possibly-absent element: a `TypeError` when
the element lookup returned `null`. -/
def readChecked : Option Checkbox → Except String Bool
  | none => .error "TypeError: Cannot read properties of null"
  | some c => .ok c.checked

/-- Reading `.value` (with `+` coercion) off a possibly-absent element. -/
def readValue : Option RangeInput → Except String ℚ
  | none => .error "TypeError: Cannot read properties of null"
  | some s => .ok s.value

/-- Time variant `update()`: dereferences `showSurvivedInput.checked`,
`showErasedInput.checked` and `+slider.value` with no null guard, then
builds the filtered sequence. -/
def updateTime (showSurvivedInput showErasedInput : Option Checkbox)
    (slider : Option RangeInput)
    (survivedData erasedData : List CraterRecord) :
    Except String (List CraterRecord) := do
  let showSurvived ← readChecked showSurvivedInput
  let showErased ← readChecked showErasedInput
  let minTime ← readValue slider
  pure (updateFilteredTime showSurvived showErased minTime survivedData erasedData)

/-- Diameter variant `update()`: every control read is guarded
(`showSurvivedInput ? showSurvivedInput.checked : true`, slider defaults
to `0`, label write guarded by `if (sliderLabel)`).  Returns the filtered
sequence and the new label text (`none` when the label is absent). -/
def updateDiam (showSurvivedInput showErasedInput : Option Checkbox)
    (slider : Option RangeInput) (sliderLabel : Option String)
    (survivedData erasedData : List CraterRecord) :
    Except String (List CraterRecord × Option String) :=
  let showSurvived := match showSurvivedInput with
    | some c => c.checked
    | none => true
  let showErased := match showErasedInput with
    | some c => c.checked
    | none => true
  let minDiameter := match slider with
    | some s => s.value
    | none => 0
  let newLabel := match sliderLabel with
    | some _ => some (toString minDiameter ++ " km")
    | none => none
  .ok (updateFilteredDiam showSurvived showErased minDiameter survivedData erasedData,
       newLabel)

/-- `d3.max` over a list of numbers: `undefined` (here `none`) on the
empty list, the maximum otherwise. -/
def d3max : List ℚ → Option ℚ
  | [] => none
  | x :: xs => some (match d3max xs with
    | none => x
    | some m => max x m)

/-- JavaScript `x || dflt` applied to a possibly-undefined number:
`undefined` and `0` are falsy. -/
def jsOr (x : Option ℚ) (dflt : ℚ) : ℚ :=
  match x with
  | none => dflt
  | some v => if v = 0 then dflt else v

/-- Time variant slider bound: `Math.ceil(d3.max(allTimes) || 100)` over
the `created` field of the concatenated datasets. -/
def sliderBoundTime (survMare erasedMare : List CraterRecord) : ℤ :=
  let allTimes := (survMare ++ erasedMare).map (·.created)
  let maxTime := d3max allTimes
  ⌈jsOr maxTime 100⌉

/-- Diameter variant slider bound: `Math.ceil(d3.max(allDiameters) || 50)`
over the `diameter` field of the concatenated datasets. -/
def sliderBoundDiam (survMare erasedMare : List CraterRecord) : ℤ :=
  let allDiameters := (survMare ++ erasedMare).map (·.diameter)
  let maxDiameter := d3max allDiameters
  ⌈jsOr maxDiameter 50⌉

/-- `survivedData.includes(d)`: SameValueZero membership, reference
equality for objects, i.e. equality of the `ref` identities. -/
def jsIncludes (l : List CraterRecord) (d : CraterRecord) : Bool :=
  l.any (fun r => r.ref == d.ref)

/-- Category class assigned to a drawn record (both variants):
`survivedData.includes(d) ? "crater-survived" : "crater-erased"`. -/
def categoryClass (survivedData : List CraterRecord) (d : CraterRecord) : String :=
  if jsIncludes survivedData d then "crater-survived" else "crater-erased"

/-- JavaScript numbers for the radius scale: a real value or `NaN`. -/
inductive JSNum where
  | nan : JSNum
  | num : ℝ → JSNum

/-- `Math.sqrt`: `NaN` on negative input, `NaN` propagates. -/
noncomputable def jsSqrt : JSNum → JSNum
  | .nan => .nan
  | .num x => if x < 0 then .nan else .num (Real.sqrt x)

/-- Multiplication; `NaN` propagates. -/
def jsMul : JSNum → JSNum → JSNum
  | .num a, .num b => .num (a * b)
  | _, _ => .nan

/-- `Math.min` of two arguments: `NaN` if either argument is `NaN`. -/
def jsMin : JSNum → JSNum → JSNum
  | .num a, .num b => .num (min a b)
  | _, _ => .nan

/-- `Math.max` of two arguments: `NaN` if either argument is `NaN`. -/
def jsMax : JSNum → JSNum → JSNum
  | .num a, .num b => .num (max a b)
  | _, _ => .nan

/-- `craterRadius` (identical in both variants):
`Math.max(1, Math.min(8, Math.sqrt(diameter) * 0.8))`. -/
noncomputable def craterRadius (diameter : JSNum) : JSNum :=
  jsMax (.num 1) (jsMin (.num 8) (jsMul (jsSqrt diameter) (.num 0.8)))

/-- Modelled from the spec: `clamp(v, lo, hi)` restricts `v` to
`[lo, hi]`. -/
def clampSpec (v lo hi : ℝ) : ℝ := max lo (min hi v)

/-! ## Helper lemmas -/

/-- The time variant filtered sequence is the concatenation of the two
(optionally empty) filtered parts. -/
theorem updateFilteredTime_eq (s e : Bool) (t : ℚ) (surv er : List CraterRecord) :
    updateFilteredTime s e t surv er =
      (if s then surv.filter (fun d => decide (d.created ≥ t)) else []) ++
      (if e then er.filter (fun d => decide (d.created ≥ t)) else []) := by
  cases s <;> cases e <;> simp [updateFilteredTime]

/-- The diameter variant filtered sequence is the concatenation of the two
(optionally empty) filtered parts. -/
theorem updateFilteredDiam_eq (s e : Bool) (t : ℚ) (surv er : List CraterRecord) :
    updateFilteredDiam s e t surv er =
      (if s then surv.filter (fun d => decide (d.diameter ≥ t)) else []) ++
      (if e then er.filter (fun d => decide (d.diameter ≥ t)) else []) := by
  cases s <;> cases e <;> simp [updateFilteredDiam]

/-! ## C10 -/

/-- C10: in the time variant parser, the single-application wrap yields
`lon ∈ [-180, 180)` exactly when the raw `Longitude` is in `[-360, 360)`,
and every raw `Longitude ≥ 360` parses to `lon ≥ 180`. -/
theorem C10_parse_lon_range :
    (∀ (d : RawRow) (r : ℕ),
      (-180 ≤ (parseCraterRowTime d r).lon ∧ (parseCraterRowTime d r).lon < 180) ↔
      (-360 ≤ d.Longitude ∧ d.Longitude < 360)) ∧
    (∀ (d : RawRow) (r : ℕ), 360 ≤ d.Longitude → 180 ≤ (parseCraterRowTime d r).lon) := by
  constructor
  · intro d r
    simp only [parseCraterRowTime]
    split <;> constructor <;> rintro ⟨h1, h2⟩ <;> constructor <;> linarith
  · intro d r h
    simp only [parseCraterRowTime]
    rw [if_neg (by linarith)]
    linarith

/-- Witness for C10 at the raw row `Longitude = 400`. -/
theorem C10_parse_lon_range_witness :
    ((-180 ≤ (parseCraterRowTime ⟨400, 10, 16, 5, none⟩ 0).lon ∧
      (parseCraterRowTime ⟨400, 10, 16, 5, none⟩ 0).lon < 180) ↔
     (-360 ≤ (400 : ℚ) ∧ (400 : ℚ) < 360)) ∧
    180 ≤ (parseCraterRowTime ⟨400, 10, 16, 5, none⟩ 0).lon :=
  ⟨C10_parse_lon_range.1 ⟨400, 10, 16, 5, none⟩ 0,
   C10_parse_lon_range.2 ⟨400, 10, 16, 5, none⟩ 0 (by norm_num)⟩

/-! ## C1 -/

/-- C1 counterexample: the diameter variant parser applies no longitude
transform, so the raw row `Longitude = 190` parses to `lon = 190`,
outside `[-180, 180)`. -/
theorem C1_counterexample :
    (parseCraterRowDiam ⟨190, 10, 16, 5, none⟩ 0).lon = 190 ∧
    ¬ ((parseCraterRowDiam ⟨190, 10, 16, 5, none⟩ 0).lon < 180) := by
  constructor
  · rfl
  · show ¬ ((190 : ℚ) < 180)
    norm_num

/-- C1 amended: the time variant parser applies the transform
`lon = lon - 180; if lon < -180 then lon += 360`, which lands in
`[-180, 180)` whenever the raw `Longitude` is in `[-360, 360)`; the
diameter variant parser stores the raw `Longitude` unchanged. -/
theorem C1_amended :
    (∀ (d : RawRow) (r : ℕ), -360 ≤ d.Longitude → d.Longitude < 360 →
      -180 ≤ (parseCraterRowTime d r).lon ∧ (parseCraterRowTime d r).lon < 180) ∧
    (∀ (d : RawRow) (r : ℕ), (parseCraterRowDiam d r).lon = d.Longitude) := by
  constructor
  · intro d r h1 h2
    simp only [parseCraterRowTime]
    split <;> constructor <;> linarith
  · intro d r
    rfl

/-- Witness for C1 at the spec example row `Longitude = 190`. -/
theorem C1_amended_witness :
    (-180 ≤ (parseCraterRowTime ⟨190, 10, 16, 5, none⟩ 0).lon ∧
     (parseCraterRowTime ⟨190, 10, 16, 5, none⟩ 0).lon < 180) ∧
    (parseCraterRowDiam ⟨190, 10, 16, 5, none⟩ 1).lon = 190 :=
  ⟨C1_amended.1 ⟨190, 10, 16, 5, none⟩ 0 (by norm_num) (by norm_num),
   C1_amended.2 ⟨190, 10, 16, 5, none⟩ 1⟩

/-! ## C2 -/

/-- C2 counterexample: in the time variant, `update()` with the
show-survived checkbox absent throws a `TypeError` instead of degrading
to a default. -/
theorem C2_counterexample :
    updateTime none (some ⟨true⟩) (some ⟨0⟩) [] [] =
      Except.error "TypeError: Cannot read properties of null" := rfl

/-- C2 amended: in the diameter variant, `update()` never throws for any
combination of absent controls, and absent controls behave exactly as
present controls at the defaults (both categories shown, threshold 0);
in the time variant, `update()` throws whenever any of the two
checkboxes or the slider is absent. -/
theorem C2_amended :
    (∀ (a b : Option Checkbox) (sl : Option RangeInput) (lbl : Option String)
       (surv er : List CraterRecord),
       (updateDiam a b sl lbl surv er).isOk = true) ∧
    (∀ (lbl : Option String) (surv er : List CraterRecord),
       updateDiam none none none lbl surv er =
         updateDiam (some ⟨true⟩) (some ⟨true⟩) (some ⟨0⟩) lbl surv er) ∧
    (∀ (a b : Option Checkbox) (sl : Option RangeInput)
       (surv er : List CraterRecord),
       a = none ∨ b = none ∨ sl = none →
         updateTime a b sl surv er =
           Except.error "TypeError: Cannot read properties of null") := by
  refine ⟨fun a b sl lbl surv er => rfl, fun lbl surv er => rfl, ?_⟩
  intro a b sl surv er h
  rcases h with h | h | h <;> subst h
  · rfl
  · cases a <;> rfl
  · cases a <;> cases b <;> rfl

/-- Witness for C2 with every control absent (diameter variant) and the
show-survived checkbox absent (time variant). -/
theorem C2_amended_witness :
    (updateDiam none none none none [] []).isOk = true ∧
    updateDiam none none none none [] [] =
      updateDiam (some ⟨true⟩) (some ⟨true⟩) (some ⟨0⟩) none [] [] ∧
    updateTime none (some ⟨false⟩) (some ⟨3⟩) [] [] =
      Except.error "TypeError: Cannot read properties of null" :=
  ⟨C2_amended.1 none none none none [] [],
   C2_amended.2.1 none [] [],
   C2_amended.2.2 none (some ⟨false⟩) (some ⟨3⟩) [] [] (Or.inl rfl)⟩

/-! ## C4 -/

/-- C4: for every control state and datasets, both variants build the
filtered sequence as the filtered survived records (filter field
`created`, resp. `diameter`) when shown, followed by the filtered erased
records when shown; each filtered part is a sublist of its dataset
(preserving relative order) and contains exactly the records meeting the
threshold. -/
theorem C4_filtered_structure :
    ∀ (s e : Bool) (t : ℚ) (surv er : List CraterRecord),
      (updateFilteredTime s e t surv er =
        (if s then surv.filter (fun d => decide (d.created ≥ t)) else []) ++
        (if e then er.filter (fun d => decide (d.created ≥ t)) else [])) ∧
      (updateFilteredDiam s e t surv er =
        (if s then surv.filter (fun d => decide (d.diameter ≥ t)) else []) ++
        (if e then er.filter (fun d => decide (d.diameter ≥ t)) else [])) ∧
      (surv.filter (fun d => decide (d.created ≥ t))).Sublist surv ∧
      (er.filter (fun d => decide (d.created ≥ t))).Sublist er ∧
      (surv.filter (fun d => decide (d.diameter ≥ t))).Sublist surv ∧
      (er.filter (fun d => decide (d.diameter ≥ t))).Sublist er ∧
      (∀ x, x ∈ surv.filter (fun d => decide (d.created ≥ t)) ↔
        x ∈ surv ∧ x.created ≥ t) ∧
      (∀ x, x ∈ er.filter (fun d => decide (d.diameter ≥ t)) ↔
        x ∈ er ∧ x.diameter ≥ t) := by
  intro s e t surv er
  refine ⟨updateFilteredTime_eq s e t surv er, updateFilteredDiam_eq s e t surv er,
    List.filter_sublist surv, List.filter_sublist er,
    List.filter_sublist surv, List.filter_sublist er, ?_, ?_⟩ <;>
  · intro x
    simp [List.mem_filter]

/-! ## C8 -/

/-- Raising a `≥ t` threshold filter never lengthens the result. -/
theorem filter_ge_length_antitone (f : CraterRecord → ℚ) (t t2 : ℚ) (h : t ≤ t2)
    (l : List CraterRecord) :
    (l.filter (fun d => decide (f d ≥ t2))).length ≤
      (l.filter (fun d => decide (f d ≥ t))).length :=
  List.Sublist.length_le
    (List.monotone_filter_right l (fun a ha => by
      simp only [decide_eq_true_eq] at ha ⊢
      exact le_trans h ha))

/-- C8: for fixed checkbox state and datasets, the filtered count is
antitone in the threshold, in both variants: a higher threshold never
yields more records. -/
theorem C8_threshold_monotone :
    ∀ (s e : Bool) (t t2 : ℚ) (surv er : List CraterRecord), t ≤ t2 →
      (updateFilteredTime s e t2 surv er).length ≤
        (updateFilteredTime s e t surv er).length ∧
      (updateFilteredDiam s e t2 surv er).length ≤
        (updateFilteredDiam s e t surv er).length := by
  intro s e t t2 surv er h
  constructor
  · rw [updateFilteredTime_eq, updateFilteredTime_eq]
    simp only [List.length_append]
    apply Nat.add_le_add <;> cases s <;> cases e <;>
      simp [filter_ge_length_antitone _ t t2 h]
  · rw [updateFilteredDiam_eq, updateFilteredDiam_eq]
    simp only [List.length_append]
    apply Nat.add_le_add <;> cases s <;> cases e <;>
      simp [filter_ge_length_antitone _ t t2 h]

/-- Witness for C8 at thresholds `3 ≤ 5` on one-record datasets. -/
theorem C8_threshold_monotone_witness :
    (updateFilteredTime true true 5 [⟨0, 0, 0, 4, 4, none⟩] []).length ≤
      (updateFilteredTime true true 3 [⟨0, 0, 0, 4, 4, none⟩] []).length ∧
    (updateFilteredDiam true true 5 [⟨0, 0, 0, 4, 4, none⟩] []).length ≤
      (updateFilteredDiam true true 3 [⟨0, 0, 0, 4, 4, none⟩] []).length :=
  C8_threshold_monotone true true 3 5 [⟨0, 0, 0, 4, 4, none⟩] [] (by norm_num)

/-! ## C9 -/

/-- C9: with threshold and datasets fixed, turning the survived checkbox
off removes exactly the survived matching records (the erased part is
unchanged), and symmetrically for the erased checkbox — in both
variants. -/
theorem C9_checkbox_frame :
    ∀ (b : Bool) (t : ℚ) (surv er : List CraterRecord),
      (updateFilteredTime true b t surv er =
        surv.filter (fun d => decide (d.created ≥ t)) ++
          updateFilteredTime false b t surv er) ∧
      (updateFilteredTime b true t surv er =
        updateFilteredTime b false t surv er ++
          er.filter (fun d => decide (d.created ≥ t))) ∧
      (updateFilteredDiam true b t surv er =
        surv.filter (fun d => decide (d.diameter ≥ t)) ++
          updateFilteredDiam false b t surv er) ∧
      (updateFilteredDiam b true t surv er =
        updateFilteredDiam b false t surv er ++
          er.filter (fun d => decide (d.diameter ≥ t))) := by
  intro b t surv er
  cases b <;> refine ⟨?_, ?_, ?_, ?_⟩ <;>
    simp [updateFilteredTime, updateFilteredDiam]

/-! ## C6 -/

/-- C6: when all records are distinct objects (pairwise distinct `ref`
identities across both input arrays), a drawn record gets the
"crater-survived" class exactly when it is a member of the survived
input array — in particular a survived-array record keeps the survived
class even when an identical-valued record exists in the erased array,
since the identical-valued record is a different object. -/
theorem C6_category_membership :
    ∀ (surv er : List CraterRecord) (d : CraterRecord),
      ((surv ++ er).map CraterRecord.ref).Nodup →
      d ∈ surv ++ er →
      (categoryClass surv d = "crater-survived" ↔ d ∈ surv) := by
  intro surv er d hnd hd
  unfold categoryClass
  constructor
  · intro h
    by_cases hinc : jsIncludes surv d = true
    · unfold jsIncludes at hinc
      rw [List.any_eq_true] at hinc
      obtain ⟨r, hr, href⟩ := hinc
      have hrd : r = d :=
        List.inj_on_of_nodup_map hnd (List.mem_append_left er hr) hd
          (by simpa using href)
      exact hrd ▸ hr
    · rw [if_neg hinc] at h
      exact absurd h (by decide)
  · intro h
    rw [if_pos]
    unfold jsIncludes
    rw [List.any_eq_true]
    exact ⟨d, h, by simp⟩

/-- Witness for C6: a survived record and an identical-valued erased
record (distinct object identity); the survived one renders with the
survived class. -/
theorem C6_category_membership_witness :
    ((([⟨0, 10, 10, 16, 5, none⟩] : List CraterRecord) ++
      ([⟨1, 10, 10, 16, 5, none⟩] : List CraterRecord)).map CraterRecord.ref).Nodup ∧
    (⟨0, 10, 10, 16, 5, none⟩ : CraterRecord) ∈
      ([⟨0, 10, 10, 16, 5, none⟩] : List CraterRecord) ++
        ([⟨1, 10, 10, 16, 5, none⟩] : List CraterRecord) ∧
    (categoryClass [⟨0, 10, 10, 16, 5, none⟩] ⟨0, 10, 10, 16, 5, none⟩ =
        "crater-survived" ↔
      (⟨0, 10, 10, 16, 5, none⟩ : CraterRecord) ∈
        ([⟨0, 10, 10, 16, 5, none⟩] : List CraterRecord)) :=
  ⟨by decide, by decide,
   C6_category_membership [⟨0, 10, 10, 16, 5, none⟩] [⟨1, 10, 10, 16, 5, none⟩]
     ⟨0, 10, 10, 16, 5, none⟩ (by decide) (by decide)⟩

/-! ## C7 -/

/-- C7 counterexample: a non-empty dataset whose maximum `created` is the
number `0` still gets the fallback bound `100`, because `0` is falsy in
`maxTime || 100` — yet the claim demands the ceiling `⌈0⌉ = 0` there. -/
theorem C7_counterexample :
    sliderBoundTime [⟨0, 0, 0, 16, 0, none⟩] [] = 100 ∧
    d3max ((([⟨0, 0, 0, 16, 0, none⟩] : List CraterRecord) ++ []).map
      CraterRecord.created) = some 0 ∧
    (100 : ℤ) ≠ ⌈(0 : ℚ)⌉ := by
  refine ⟨by decide, by decide, by decide⟩

/-- C7 amended: the slider bound is the fallback (100, resp. 50) when the
concatenated dataset is empty or its maximum filter-field value is `0`
(a falsy number), and the ceiling of the maximum otherwise. -/
theorem C7_amended :
    (∀ (surv er : List CraterRecord),
       (d3max ((surv ++ er).map (·.created)) = none ∨
        d3max ((surv ++ er).map (·.created)) = some 0) →
       sliderBoundTime surv er = 100) ∧
    (∀ (surv er : List CraterRecord) (m : ℚ),
       d3max ((surv ++ er).map (·.created)) = some m → m ≠ 0 →
       sliderBoundTime surv er = ⌈m⌉) ∧
    (∀ (surv er : List CraterRecord),
       (d3max ((surv ++ er).map (·.diameter)) = none ∨
        d3max ((surv ++ er).map (·.diameter)) = some 0) →
       sliderBoundDiam surv er = 50) ∧
    (∀ (surv er : List CraterRecord) (m : ℚ),
       d3max ((surv ++ er).map (·.diameter)) = some m → m ≠ 0 →
       sliderBoundDiam surv er = ⌈m⌉) := by
  refine ⟨?_, ?_, ?_, ?_⟩
  · intro surv er h
    simp only [sliderBoundTime]
    rcases h with h | h <;> rw [h] <;> decide
  · intro surv er m h hm
    simp only [sliderBoundTime]
    rw [h]
    simp [jsOr, hm]
  · intro surv er h
    simp only [sliderBoundDiam]
    rcases h with h | h <;> rw [h] <;> decide
  · intro surv er m h hm
    simp only [sliderBoundDiam]
    rw [h]
    simp [jsOr, hm]

/-- Witness for C7: empty datasets take the fallbacks; a singleton dataset
with nonzero field values takes the ceilings. -/
theorem C7_amended_witness :
    sliderBoundTime [] [] = 100 ∧
    sliderBoundDiam [] [] = 50 ∧
    sliderBoundTime [⟨0, 0, 0, 16, 7, none⟩] [] = ⌈(7 : ℚ)⌉ ∧
    sliderBoundDiam [⟨0, 0, 0, 16, 7, none⟩] [] = ⌈(16 : ℚ)⌉ :=
  ⟨C7_amended.1 [] [] (Or.inl rfl),
   C7_amended.2.2.1 [] [] (Or.inl rfl),
   C7_amended.2.1 [⟨0, 0, 0, 16, 7, none⟩] [] 7 rfl (by norm_num),
   C7_amended.2.2.2 [⟨0, 0, 0, 16, 7, none⟩] [] 16 rfl (by norm_num)⟩

/-! ## Radius scale helper lemmas -/

/-- On a nonnegative diameter the radius scale computes the clamp of
`sqrt d * 0.8` to `[1, 8]`. -/
theorem craterRadius_nonneg_eq (d : ℝ) (hd : 0 ≤ d) :
    craterRadius (JSNum.num d) = JSNum.num (clampSpec (Real.sqrt d * 0.8) 1 8) := by
  simp only [craterRadius, jsSqrt, jsMul, jsMin, jsMax, clampSpec]
  rw [if_neg (not_lt.mpr hd)]

/-- On a negative diameter `Math.sqrt` yields `NaN`, which propagates
through the multiplication, `Math.min` and `Math.max`. -/
theorem craterRadius_neg (d : ℝ) (hd : d < 0) :
    craterRadius (JSNum.num d) = JSNum.nan := by
  simp only [craterRadius, jsSqrt, jsMul, jsMin, jsMax]
  rw [if_pos hd]

/-! ## C3 -/

/-- C3 counterexample: at diameter `-1` the radius scale returns `NaN`
(`Math.sqrt(-1)` is `NaN` and `Math.min`/`Math.max` propagate it), not
the clamped minimum `1`. -/
theorem C3_counterexample :
    craterRadius (JSNum.num (-1)) = JSNum.nan ∧
    craterRadius (JSNum.num (-1)) ≠ JSNum.num 1 := by
  have h : craterRadius (JSNum.num (-1)) = JSNum.nan :=
    craterRadius_neg (-1) (by norm_num)
  exact ⟨h, by rw [h]; exact fun hc => JSNum.noConfusion hc⟩

/-- C3 amended: for diameters `d` with `0 ≤ d ≤ 25/16` (in particular
`d = 0`) the radius scale returns the clamped minimum `1`; for every
`d < 0` it returns `NaN`. -/
theorem C3_amended :
    (∀ d : ℝ, 0 ≤ d → d ≤ 25 / 16 → craterRadius (JSNum.num d) = JSNum.num 1) ∧
    (∀ d : ℝ, d < 0 → craterRadius (JSNum.num d) = JSNum.nan) := by
  constructor
  · intro d h0 h1
    rw [craterRadius_nonneg_eq d h0]
    congr 1
    have hs : Real.sqrt d ≤ 5 / 4 := by
      rw [show (5 / 4 : ℝ) = Real.sqrt ((5 / 4) ^ 2) from
        (Real.sqrt_sq (by norm_num)).symm]
      exact Real.sqrt_le_sqrt (by nlinarith)
    have hx : Real.sqrt d * 0.8 ≤ 1 := by nlinarith [Real.sqrt_nonneg d]
    unfold clampSpec
    rw [min_eq_right (le_trans hx (by norm_num)), max_eq_left hx]
  · exact craterRadius_neg

/-- Witness for C3 at diameters `1` and `-2`. -/
theorem C3_amended_witness :
    craterRadius (JSNum.num 1) = JSNum.num 1 ∧
    craterRadius (JSNum.num (-2)) = JSNum.nan :=
  ⟨C3_amended.1 1 (by norm_num) (by norm_num),
   C3_amended.2 (-2) (by norm_num)⟩

/-! ## C5 -/

/-- C5 counterexample: at diameter `-4` the radius scale returns `NaN`,
which is not the clamp of `sqrt(-4) * 0.8` to `[1, 8]` (nor any real
value in `[1, 8]`). -/
theorem C5_counterexample :
    craterRadius (JSNum.num (-4)) = JSNum.nan ∧
    JSNum.nan ≠ JSNum.num (clampSpec (Real.sqrt (-4) * 0.8) 1 8) :=
  ⟨craterRadius_neg (-4) (by norm_num), fun hc => JSNum.noConfusion hc⟩

/-- C5 amended: for every diameter `d ≥ 0`, `craterRadius(d)` equals
`clamp(sqrt(d) * 0.8, 1, 8)`, that value lies in `[1, 8]`, and it is
non-decreasing in `d`; for `d < 0` the scale yields `NaN`
(see the C3 result). -/
theorem C5_amended :
    (∀ d : ℝ, 0 ≤ d →
      craterRadius (JSNum.num d) = JSNum.num (clampSpec (Real.sqrt d * 0.8) 1 8) ∧
      1 ≤ clampSpec (Real.sqrt d * 0.8) 1 8 ∧
      clampSpec (Real.sqrt d * 0.8) 1 8 ≤ 8) ∧
    (∀ a b : ℝ, 0 ≤ a → a ≤ b →
      clampSpec (Real.sqrt a * 0.8) 1 8 ≤ clampSpec (Real.sqrt b * 0.8) 1 8) := by
  constructor
  · intro d hd
    refine ⟨craterRadius_nonneg_eq d hd, le_max_left 1 _, ?_⟩
    unfold clampSpec
    exact max_le (by norm_num) (min_le_left 8 _)
  · intro a b ha hab
    unfold clampSpec
    have h : Real.sqrt a * 0.8 ≤ Real.sqrt b * 0.8 :=
      mul_le_mul_of_nonneg_right (Real.sqrt_le_sqrt hab) (by norm_num)
    exact max_le_max le_rfl (min_le_min le_rfl h)

/-- Witness for C5 at diameters `16` (spec example, radius `3.2`) and the
pair `0 ≤ 16` for monotonicity. -/
theorem C5_amended_witness :
    (craterRadius (JSNum.num 16) = JSNum.num (clampSpec (Real.sqrt 16 * 0.8) 1 8) ∧
     1 ≤ clampSpec (Real.sqrt 16 * 0.8) 1 8 ∧
     clampSpec (Real.sqrt 16 * 0.8) 1 8 ≤ 8) ∧
    clampSpec (Real.sqrt 0 * 0.8) 1 8 ≤ clampSpec (Real.sqrt 16 * 0.8) 1 8 :=
  ⟨C5_amended.1 16 (by norm_num), C5_amended.2 0 16 (by norm_num) (by norm_num)⟩
